import Mathlib

/-!
Shallow embedding of the conversation state machine and reminder scheduler of
the vk_approval_bot service (`src/bot/bot.service.ts`).  Sessions live in a
key-value store keyed by chat id, tasks and users in a relational store; both
are modelled here as in-memory lists inside `BotState`.  Each handler is a pure
function from the pre-state and the inbound event to the post-state together
with the ordered list of outward effects (messages sent, store writes) it
performs.  Times are milliseconds since the epoch, as in JavaScript `Date`.
-/

namespace VkBot

/-- Modelled from the spec: the `TASK_STATUS` enumeration of `bot.types.ts`
(the file itself is not in the snapshot); the spec and all call sites use the
three states `PENDING`, `APPROVED`, `REJECTED`. -/
inductive TaskStatus where
  | PENDING
  | APPROVED
  | REJECTED
  deriving DecidableEq, Repr

/-- Modelled from the spec: the `USER_STEPS` enumeration of `bot.types.ts`
(the file itself is not in the snapshot); the spec and all call sites use the
four conversation steps below. -/
inductive UserStep where
  | AWAITING_DESCRIPTION
  | AWAITING_USER_ID
  | AWAITING_USER_ID_FOR_TASKS
  | AWAITING_TIME
  deriving DecidableEq, Repr

/-- A row of the Prisma `Task` model. -/
structure Task where
  id : String
  userToId : String
  chatId : String
  firstName : String
  lastName : String
  text : Option String
  fileCaption : Option String
  fileId : Option String
  status : TaskStatus
  remindInterval : Int
  lastRemind : Int
  createdAt : Int
  deriving DecidableEq, Repr

/-- A row of the Prisma `User` model (the fields the handlers touch). -/
structure UserRec where
  vkId : String
  firstName : String
  lastName : String
  deriving DecidableEq, Repr

/-- The in-progress `taskData` object accumulated across conversation steps. -/
structure TaskData where
  description : Option String
  firstName : Option String
  lastName : Option String
  fileId : Option String
  fileCaption : Option String
  userId : Option String
  remindInterval : Option Int
  deriving DecidableEq, Repr

/-- The empty `taskData` object `{}`. -/
def TaskData.empty : TaskData :=
  ⟨none, none, none, none, none, none, none⟩

/-- The JSON value stored in the session store under a chat id. -/
structure Session where
  step : UserStep
  taskData : TaskData
  deriving DecidableEq, Repr

/-- One inline-keyboard button. -/
structure Button where
  text : String
  callbackData : String
  style : String
  deriving DecidableEq, Repr

/-- An inline keyboard markup: rows of buttons. -/
abbrev Keyboard := List (List Button)

/-- The combined durable and ephemeral state the handlers read and write:
Redis sessions (assoc list keyed by chat id), the `Task` table and the
`User` table. -/
structure BotState where
  sessions : List (String × Session)
  tasks : List Task
  users : List UserRec
  deriving DecidableEq, Repr

/-- An outward effect of a handler, in the order the source performs it. -/
inductive Effect where
  | SendText (chatId : String) (text : String) (keyboard : Option Keyboard)
  | SendFile (chatId : String) (fileId : String) (caption : String)
      (keyboard : Option Keyboard)
  | AnswerCallback (queryId : String) (text : String)
  | SessionSet (chatId : String) (sess : Session) (expirySec : Option Nat)
  | SessionDel (chatId : String)
  | TaskCreate (task : Task)
  | TaskUpdateStatus (taskId : String) (newStatus : TaskStatus)
  | TaskSetLastRemind (taskId : String) (lastRemind : Int)
  | UserUpsert (vkId : String) (firstName : String) (lastName : String)
  deriving DecidableEq, Repr

/-! ### Store primitives -/

/-- `redis.get(chatId)` -/
def sessGet (s : BotState) (chatId : String) : Option Session :=
  (s.sessions.find? (fun p => p.1 = chatId)).map Prod.snd

/-- `redis.set(chatId, ...)` (state part; the TTL lives only in the effect). -/
def sessSet (s : BotState) (chatId : String) (sess : Session) : BotState :=
  { s with sessions :=
      (chatId, sess) :: s.sessions.filter (fun p => ¬ p.1 = chatId) }

/-- `redis.del(chatId)` -/
def sessDel (s : BotState) (chatId : String) : BotState :=
  { s with sessions := s.sessions.filter (fun p => ¬ p.1 = chatId) }

/-- `prisma.task.findUnique({ where: { id } })` -/
def taskFind (s : BotState) (id : String) : Option Task :=
  s.tasks.find? (fun t => t.id = id)

/-- `prisma.user.findUnique({ where: { vkId } })` -/
def userFind (s : BotState) (vkId : String) : Option UserRec :=
  s.users.find? (fun u => u.vkId = vkId)

/-- `prisma.task.update({ where: { id }, data: { status } })` -/
def taskSetStatus (s : BotState) (tid : String) (st : TaskStatus) : BotState :=
  let upd := fun (u : Task) => if u.id = tid then { u with status := st } else u
  { s with tasks := s.tasks.map upd }

/-- The row-level effect of `update({ where: { id }, data: { lastRemind } })`. -/
def updLastRemind (tid : String) (v : Int) (u : Task) : Task :=
  if u.id = tid then { u with lastRemind := v } else u

/-- `prisma.task.update({ where: { id }, data: { lastRemind } })` -/
def taskSetLastRemind (s : BotState) (tid : String) (v : Int) : BotState :=
  { s with tasks := s.tasks.map (updLastRemind tid v) }

/-- `prisma.user.upsert({ where: { vkId }, update: {}, create: {...} })` -/
def userUpsert (s : BotState) (vkId fn ln : String) : BotState :=
  match userFind s vkId with
  | some _ => s
  | none => { s with users := s.users ++ [⟨vkId, fn, ln⟩] }

/-! ### JavaScript string / number semantics

All string operations are defined by structural recursion over the character
list so that every handler is evaluable by the kernel. -/

/-- Split a character list at every occurrence of `sep` (JS
`String.prototype.split` with a one-character separator: never empty, keeps
empty segments). -/
def splitChar (sep : Char) : List Char → List (List Char)
  | [] => [[]]
  | c :: cs =>
    let r := splitChar sep cs
    if c = sep then [] :: r
    else (c :: r.headD []) :: r.tail

/-- `text.split(sep)` for a one-character separator. -/
def jsSplit (s : String) (sep : Char) : List String :=
  (splitChar sep s.toList).map (fun l => ⟨l⟩)

/-- Whether `pre` is a prefix of `l`. -/
def listIsPrefix : List Char → List Char → Bool
  | [], _ => true
  | _ :: _, [] => false
  | a :: as, b :: bs => a = b && listIsPrefix as bs

/-- `s.startsWith(pre)` -/
def jsStartsWith (s pre : String) : Bool :=
  listIsPrefix pre.toList s.toList

/-- `s.includes(c)` for a one-character needle. -/
def jsIncludesChar (s : String) (c : Char) : Bool :=
  s.toList.any (fun x => x = c)

/-- The whitespace characters `parseInt` skips (the common StrWhiteSpace set). -/
def isJsSpace (c : Char) : Bool :=
  c = ' ' || c = '\t' || c = '\n' || c = '\r' || c = '\x0b' || c = '\x0c'

/-- `parseInt(text, 10)`: skip leading whitespace, take an optional sign and
the longest prefix of decimal digits; `none` models `NaN`. -/
def jsParseInt (s : String) : Option Int :=
  let cs := s.toList.dropWhile isJsSpace
  let signAndRest : Int × List Char :=
    match cs with
    | '-' :: rest => (-1, rest)
    | '+' :: rest => (1, rest)
    | _ => (1, cs)
  let ds := signAndRest.2.takeWhile Char.isDigit
  if ds.isEmpty then none
  else some (signAndRest.1 *
    (ds.foldl (fun a c => a * 10 + (c.toNat - '0'.toNat)) 0 : Nat))

/-- JavaScript string truthiness for an optional string field
(`undefined`, `null` and `""` are falsy). -/
def optTruthy : Option String → Bool
  | some s => ¬ s = ""
  | none => false

/-- `a || d` on an optional string (falsy left operand yields the default). -/
def jsOr (o : Option String) (d : String) : String :=
  match o with
  | some s => if s = "" then d else s
  | none => d

/-- `urlParts[urlParts.length - 1]` after `text.split('/')`: the segment after
the last slash (`jsSplit` never returns an empty list). -/
def contactOf (text : String) : String :=
  (jsSplit text '/').getLastD ""

/-! ### Message texts (verbatim from the source) -/

def msgSendContact : String :=
  "Отправьте контакт из ваших контактов, кому нужно назначить задачу:"

def msgBadContact : String :=
  "Некорректная ссылка. Отправьте контакт из ваших контактов."

def msgUserNotFound : String := "Пользователь с таким userId не найден."

def msgEnterInterval : String := "Введите интервал напоминания в минутах:"

def msgBadInterval : String :=
  "Неверный формат интервала. Введите положительное число."

def msgTaskCreated : String := "Задача успешно создана!"

def msgCreateError : String :=
  "Произошла ошибка при создании задачи. Попробуйте снова."

def msgTasksError : String :=
  "Произошла ошибка при получении задач. Попробуйте снова."

def msgUnknownCommand : String :=
  "Неизвестная команда. Используйте /help для списка команд."

def msgWelcome : String := "Добро пожаловать! Выберите команду:"

def msgHelp : String :=
  "Доступные команды:\n    /start - Начать работу с ботом\n    /create-task - Создать новую задачу\n    /delete-task - Удалить задачу\n    /watch-last-tasks - Просмотреть последние задачи\n    /help - Получить список команд"

def msgTaskNotFound : String := "Задача не найдена."

def msgApproved : String := "Задача успешно подтверждена!"

def msgRejected : String := "Задача отклонена."

def msgAlreadyApproved : String := "Задача уже подтверждена."

def msgAlreadyRejected : String := "Задача уже отклонена."

def msgEnterDescription : String := "Введите описание задачи:"

def msgSendUserContact : String := "Отправьте контакт пользователя:"

def msgNoOwnTasks : String := "У вас нет созданных задач."

def ackText : String := "Команда обработана"

/-- The four-button welcome grid sent by `/start`. -/
def welcomeKeyboard : Keyboard :=
  [[⟨"Создать задачу", "create_task", "primary"⟩,
    ⟨"Посмотреть задачи пользователя", "check_user_tasks", "primary"⟩],
   [⟨"Просмотреть последние задачи", "watch_tasks", "primary"⟩],
   [⟨"Просмотреть статистику", "watch_statistics", "primary"⟩]]

/-- The approve/reject button row attached to a reminder. -/
def reminderKeyboard (taskId : String) : Keyboard :=
  [[⟨"Подтвердить", "approve_" ++ taskId, "primary"⟩,
    ⟨"Отклонить", "reject_" ++ taskId, "attention"⟩]]

/-! ### Report formatting -/

/-- The localized status label used in task reports. -/
def statusLabel (st : TaskStatus) : String :=
  match st with
  | .APPROVED => "Подтверждена"
  | .REJECTED => "Отклонена"
  | .PENDING => "В ожидании"

/-- `createdAt.toLocaleString()`; the rendering is locale-dependent, modelled
as the decimal millisecond timestamp. -/
def jsLocaleString (t : Int) : String := toString t

/-- Stable insertion of a task into a list sorted by `createdAt` descending. -/
def insertByCreatedDesc (t : Task) : List Task → List Task
  | [] => [t]
  | u :: us =>
    if t.createdAt ≤ u.createdAt then u :: insertByCreatedDesc t us
    else t :: u :: us

/-- `orderBy: { createdAt: 'desc' }` -/
def sortByCreatedDesc (l : List Task) : List Task :=
  l.foldr insertByCreatedDesc []

/-- `task.findMany({ where: { chatId }, orderBy: createdAt desc, take: 10 })` -/
def recentTasksByChat (s : BotState) (cid : String) : List Task :=
  (sortByCreatedDesc (s.tasks.filter (fun t => t.chatId = cid))).take 10

/-- `task.findMany({ where: { userToId }, orderBy: createdAt desc, take: 10 })` -/
def recentTasksByAssignee (s : BotState) (uid : String) : List Task :=
  (sortByCreatedDesc (s.tasks.filter (fun t => t.userToId = uid))).take 10

/-- One numbered entry of a task report. -/
def taskReportLine (s : BotState) (idx : Nat) (t : Task) : String :=
  let assigned := userFind s t.userToId
  "*Задача " ++ toString (idx + 1) ++ ":*\n" ++
  "*Описание:* " ++
    (if optTruthy t.text then t.text.getD ""
     else jsOr t.fileCaption "Описание отсутствует") ++ "\n" ++
  "*Для кого:* " ++
    (match assigned with
     | some u => u.firstName ++ " " ++ u.lastName
     | none => "Неизвестный пользователь") ++ "\n" ++
  "*Статус:* " ++ statusLabel t.status ++ "\n" ++
  "*Создано:* " ++ jsLocaleString t.createdAt ++ "\n\n"

/-- A full task report: header followed by one numbered line per task. -/
def tasksReport (s : BotState) (header : String) (ts : List Task) : String :=
  ts.enum.foldl (fun acc p => acc ++ taskReportLine s p.1 p.2) header

/-- The header of the `watch_tasks` report. -/
def ownTasksHeader : String := "📝 *Последние 10 задач:*\n\n"

/-- The header of the per-user report in `AWAITING_USER_ID_FOR_TASKS`. -/
def userTasksHeader (u : UserRec) : String :=
  "📝 *Последние 10 задач пользователя " ++ u.firstName ++ " " ++
    u.lastName ++ ":*\n\n"

/-- The reply when the inspected user has no tasks. -/
def noUserTasksText (u : UserRec) : String :=
  "У пользователя " ++ u.firstName ++ " " ++ u.lastName ++ " нет задач."

/-- The `watch_statistics` summary for the calling user. -/
def statsReply (s : BotState) (uid : String) : String :=
  let totalTasks := (s.tasks.filter (fun t => t.chatId = uid)).length
  let approved := (s.tasks.filter
    (fun t => t.chatId = uid && t.status = TaskStatus.APPROVED)).length
  let rejected := (s.tasks.filter
    (fun t => t.chatId = uid && t.status = TaskStatus.REJECTED)).length
  let pending := (s.tasks.filter
    (fun t => t.chatId = uid && t.status = TaskStatus.PENDING)).length
  "📊 *Статистика по вашим задачам:*\n\n" ++
  "• Всего создано задач: " ++ toString totalTasks ++ "\n" ++
  "• Одобрено: " ++ toString approved ++ "\n" ++
  "• Отклонено: " ++ toString rejected ++ "\n" ++
  "• В ожидании: " ++ toString pending

/-! ### Events and handler outputs -/

/-- A `newMessage` event payload (the fields the handler reads). -/
structure FilePart where
  fileId : String
  caption : Option String
  deriving DecidableEq, Repr

/-- A `newMessage` event: chat id, text, sender display name, and the optional
file part found among `event.payload.parts`. -/
structure MsgEvent where
  chatId : String
  text : String
  fromFirstName : String
  fromLastName : String
  filePart : Option FilePart
  deriving DecidableEq, Repr

/-- A `callbackQuery` event: callback data, query id, the chat the inline
message lives in, and the pressing user's id. -/
structure CbEvent where
  callbackData : String
  queryId : String
  chatId : String
  userId : String
  deriving DecidableEq, Repr

/-- The result of a handler branch before the trailing reply send: post-state,
effects so far, reply text, and the inline keyboard for the reply (empty list
stands for the JS empty array, sent as `null`). -/
structure HandlerOut where
  state : BotState
  effects : List Effect
  reply : String
  keyboard : Keyboard
  deriving DecidableEq, Repr

/-! ### Conversation engine: message path -/

/-- Capture the attached file id/caption into the in-progress task, if any. -/
def withFile (td : TaskData) (f : Option FilePart) : TaskData :=
  match f with
  | some fp => { td with fileId := some fp.fileId, fileCaption := fp.caption }
  | none => td

/-- `AWAITING_DESCRIPTION`: capture description, sender name, optional file;
advance to `AWAITING_USER_ID` with a 1-hour TTL. -/
def stepDescription (s : BotState) (ev : MsgEvent) (td : TaskData) :
    HandlerOut :=
  let td1 := { td with description := some ev.text, firstName := some ev.fromFirstName, lastName := some ev.fromLastName }
  let td2 := withFile td1 ev.filePart
  let newSess : Session := ⟨.AWAITING_USER_ID, td2⟩
  ⟨sessSet s ev.chatId newSess,
   [.SessionSet ev.chatId newSess (some 3600)], msgSendContact, []⟩

/-- `AWAITING_USER_ID`: parse the contact link; on a malformed link or an
unknown user reply and leave the session untouched; otherwise record the
target and advance to `AWAITING_TIME` with a 1-hour TTL. -/
def stepUserId (s : BotState) (ev : MsgEvent) (td : TaskData) : HandlerOut :=
  let contactId := contactOf ev.text
  if contactId = "" || ! jsIncludesChar contactId '@' then
    ⟨s, [], msgBadContact, []⟩
  else
    match userFind s contactId with
    | none => ⟨s, [], msgUserNotFound, []⟩
    | some _ =>
      let td1 := withFile { td with userId := some contactId } ev.filePart
      let newSess : Session := ⟨.AWAITING_TIME, td1⟩
      ⟨sessSet s ev.chatId newSess,
       [.SessionSet ev.chatId newSess (some 3600)], msgEnterInterval, []⟩

/-- `AWAITING_USER_ID_FOR_TASKS`: parse the contact link; on a valid, existing
user report their 10 most-recent tasks and delete the session. -/
def stepUserIdForTasks (s : BotState) (ev : MsgEvent) : HandlerOut :=
  let contactId := contactOf ev.text
  if contactId = "" || ! jsIncludesChar contactId '@' then
    ⟨s, [], msgBadContact, []⟩
  else
    match userFind s contactId with
    | none => ⟨s, [], msgUserNotFound, []⟩
    | some u =>
      let ts := recentTasksByAssignee s contactId
      let resp :=
        if ts.isEmpty then noUserTasksText u
        else tasksReport s (userTasksHeader u) ts
      ⟨sessDel s ev.chatId, [.SessionDel ev.chatId], resp, []⟩

/-- `AWAITING_TIME`: parse the interval with `parseInt(text, 10)`; on `NaN` or
a non-positive value reply with a format error and keep the session; otherwise
create the `PENDING` task.  `createFails` injects the `prisma.task.create`
rejection; the `catch` block's `break` exits the `switch` before
`redis.del(chatId)`, so on failure the session is left in place.  (The
creator-name/target fields were populated by the earlier steps; an absent
optional is modelled as the empty string.) -/
def stepTime (s : BotState) (ev : MsgEvent) (now : Int) (newId : String)
    (createFails : Bool) (td : TaskData) : HandlerOut :=
  match jsParseInt ev.text with
  | none => ⟨s, [], msgBadInterval, []⟩
  | some interval =>
    if interval ≤ 0 then ⟨s, [], msgBadInterval, []⟩
    else if createFails then ⟨s, [], msgCreateError, []⟩
    else
      let newTask : Task :=
        { id := newId, userToId := td.userId.getD "", chatId := ev.chatId,
          firstName := td.firstName.getD "", lastName := td.lastName.getD "",
          text := td.description, fileCaption := td.fileCaption,
          fileId := td.fileId, status := .PENDING,
          remindInterval := interval, lastRemind := now, createdAt := now }
      ⟨sessDel { s with tasks := s.tasks ++ [newTask] } ev.chatId,
       [.TaskCreate newTask, .SessionDel ev.chatId], msgTaskCreated, []⟩

/-- Dispatch on the stored session step (the `switch (step)` of the source). -/
def stepCore (s : BotState) (ev : MsgEvent) (now : Int) (newId : String)
    (createFails : Bool) (sess : Session) : HandlerOut :=
  match sess.step with
  | .AWAITING_DESCRIPTION => stepDescription s ev sess.taskData
  | .AWAITING_USER_ID => stepUserId s ev sess.taskData
  | .AWAITING_USER_ID_FOR_TASKS => stepUserIdForTasks s ev
  | .AWAITING_TIME => stepTime s ev now newId createFails sess.taskData

/-- Idle-state command dispatch on the first whitespace-delimited token. -/
def commandCore (s : BotState) (ev : MsgEvent) : HandlerOut :=
  match (jsSplit ev.text ' ').headD "" with
  | "/start" =>
    let s1 := sessDel s ev.chatId
    let s2 := userUpsert s1 ev.chatId ev.fromFirstName ev.fromLastName
    ⟨s2, [.SessionDel ev.chatId,
          .UserUpsert ev.chatId ev.fromFirstName ev.fromLastName],
     msgWelcome, welcomeKeyboard⟩
  | "/help" => ⟨s, [], msgHelp, []⟩
  | _ => ⟨s, [], msgUnknownCommand, []⟩

/-- The branching part of `handleMessage`: run the session branch when a
session exists, otherwise the command branch. -/
def msgCore (s : BotState) (ev : MsgEvent) (now : Int) (newId : String)
    (createFails : Bool) : HandlerOut :=
  match sessGet s ev.chatId with
  | some sess => stepCore s ev now newId createFails sess
  | none => commandCore s ev

/-- `handleMessage`: run the branch, then send exactly one reply (keyboard
only when the branch produced a non-empty one).  `now` is the wall clock at
the `new Date()` call, `newId` the uuid Prisma assigns to a created task, and
`createFails` injects a `task.create` persistence failure. -/
def handleMessage (s : BotState) (ev : MsgEvent) (now : Int) (newId : String)
    (createFails : Bool) : BotState × List Effect :=
  let r := msgCore s ev now newId createFails
  (r.state, r.effects ++
    [Effect.SendText ev.chatId r.reply
      (if r.keyboard.isEmpty then none else some r.keyboard)])

/-! ### Conversation engine: callback path -/

/-- The guard `callbackData.startsWith('approve_') || startsWith('reject_')`. -/
def isApproveReject (cd : String) : Bool :=
  jsStartsWith cd "approve_" || jsStartsWith cd "reject_"

/-- `const [action, taskId] = callbackData.split('_')`: the first segment. -/
def cbAction (cd : String) : String := (jsSplit cd '_').headD ""

/-- `const [action, taskId] = callbackData.split('_')`: the second segment. -/
def cbTaskId (cd : String) : String := ((jsSplit cd '_').drop 1).headD ""

/-- The approve/reject branch: look up the task; update its status only when
it is still `PENDING`, otherwise reply with the existing state. -/
def approveRejectCore (s : BotState) (action taskId : String) :
    HandlerOut :=
  match taskFind s taskId with
  | none => ⟨s, [], msgTaskNotFound, []⟩
  | some t =>
    match t.status with
    | .PENDING =>
      let newStatus :=
        if action = "approve" then TaskStatus.APPROVED else TaskStatus.REJECTED
      ⟨taskSetStatus s taskId newStatus,
       [.TaskUpdateStatus taskId newStatus],
       if action = "approve" then msgApproved else msgRejected, []⟩
    | .APPROVED => ⟨s, [], msgAlreadyApproved, []⟩
    | .REJECTED => ⟨s, [], msgAlreadyRejected, []⟩

/-- The `switch (callbackData)` menu branch of `handleCallback`. -/
def menuCore (s : BotState) (ev : CbEvent) : HandlerOut :=
  match ev.callbackData with
  | "create_task" =>
    let sess : Session := ⟨.AWAITING_DESCRIPTION, TaskData.empty⟩
    ⟨sessSet s ev.chatId sess, [.SessionSet ev.chatId sess none],
     msgEnterDescription, []⟩
  | "watch_tasks" =>
    let ts := recentTasksByChat s ev.userId
    ⟨s, [], if ts.isEmpty then msgNoOwnTasks else tasksReport s ownTasksHeader ts, []⟩
  | "check_user_tasks" =>
    let sess : Session := ⟨.AWAITING_USER_ID_FOR_TASKS, TaskData.empty⟩
    ⟨sessSet s ev.chatId sess, [.SessionSet ev.chatId sess none],
     msgSendUserContact, []⟩
  | "watch_statistics" => ⟨s, [], statsReply s ev.userId, []⟩
  | _ => ⟨s, [], msgUnknownCommand, []⟩

/-- The branching part of `handleCallback`, before the common tail. -/
def handleCallbackCore (s : BotState) (ev : CbEvent) : HandlerOut :=
  if isApproveReject ev.callbackData then
    approveRejectCore s (cbAction ev.callbackData) (cbTaskId ev.callbackData)
  else menuCore s ev

/-- `handleCallback`: run the branch, then acknowledge the callback query and
send the reply as a plain text message (no keyboard parameter on this path). -/
def handleCallback (s : BotState) (ev : CbEvent) : BotState × List Effect :=
  let r := handleCallbackCore s ev
  (r.state, r.effects ++
    [Effect.AnswerCallback ev.queryId ackText,
     Effect.SendText ev.chatId r.reply none])

/-! ### Reminder scheduler -/

/-- The reminder prompt text (built from the re-fetched task). -/
def reminderText (t : Task) : String :=
  "📨 *Новая задача на утверждение*\n\n" ++
  "*От:* " ++ t.firstName ++ " " ++ t.lastName ++ "\n" ++
  (if optTruthy t.text then
     "*Описание задачи:* " ++ jsOr t.text "Описание отсутствует" ++ "\n"
   else "") ++
  (if optTruthy t.fileId then
     "*Описание файла:* " ++ jsOr t.fileCaption "Описание отсутствует" ++ "\n"
   else "")

/-- `sendReminderWithButtons(chatId, taskId)`: re-fetch the task and send the
prompt (file or text) with the approve/reject buttons; `none` models the
throw when the task is not found. -/
def sendReminderWithButtons (st : BotState) (chatId taskId : String) :
    Option Effect :=
  match taskFind st taskId with
  | none => none
  | some t =>
    if optTruthy t.fileId then
      some (Effect.SendFile chatId (t.fileId.getD "") (reminderText t)
        (some (reminderKeyboard taskId)))
    else
      some (Effect.SendText chatId (reminderText t)
        (some (reminderKeyboard taskId)))

/-- `task.findMany({ where: { status: 'PENDING', lastRemind: { lt: now } } })` -/
def reminderSelect (s : BotState) (now : Int) : List Task :=
  s.tasks.filter
    (fun t => t.status = TaskStatus.PENDING && t.lastRemind < now)

/-- The body of the sweep's per-task loop.  `sendFails` injects a failing
outbound send; any throw is caught by the per-task `catch`, skipping the
`lastRemind` update for that task only. -/
def reminderStep (now : Int) (sendFails : String → Bool)
    (acc : BotState × List Effect) (task : Task) : BotState × List Effect :=
  if sendFails task.id then acc
  else
    match sendReminderWithButtons acc.1 task.userToId task.id with
    | none => acc
    | some e =>
      let newLast := now + task.remindInterval * 60 * 1000
      (taskSetLastRemind acc.1 task.id newLast,
       acc.2 ++ [e, Effect.TaskSetLastRemind task.id newLast])

/-- One tick of `startReminderChecks`: select the due pending tasks at `now`,
then loop, sending the prompt and advancing `lastRemind` for each. -/
def reminderTick (s : BotState) (now : Int) (sendFails : String → Bool) :
    BotState × List Effect :=
  (reminderSelect s now).foldl (reminderStep now sendFails) (s, [])

/-! ### Effect classification and frame relations -/

/-- Outward-message effects: the sends and the callback acknowledgement. -/
def isMsgEffect : Effect → Bool
  | .SendText _ _ _ => true
  | .SendFile _ _ _ _ => true
  | .AnswerCallback _ _ => true
  | _ => false

/-- Session-store mutations. -/
def isSessionWrite : Effect → Bool
  | .SessionSet _ _ _ => true
  | .SessionDel _ => true
  | _ => false

/-- `b` is `a` with every field except `lastRemind` unchanged. -/
def sameExceptLastRemind (a b : Task) : Prop :=
  b.id = a.id ∧ b.userToId = a.userToId ∧ b.chatId = a.chatId ∧
  b.firstName = a.firstName ∧ b.lastName = a.lastName ∧ b.text = a.text ∧
  b.fileCaption = a.fileCaption ∧ b.fileId = a.fileId ∧
  b.status = a.status ∧ b.remindInterval = a.remindInterval ∧
  b.createdAt = a.createdAt

/-- `e` is a reminder prompt carrying the approve/reject buttons of task
`tid`. -/
def isReminderSendFor (tid : String) : Effect → Prop
  | .SendText _ _ (some kb) => kb = reminderKeyboard tid
  | .SendFile _ _ _ (some kb) => kb = reminderKeyboard tid
  | _ => False

/-- The effects the sweep's per-task loop body can emit for a task `x`. -/
def sweepEffectOf (x : Task) (e : Effect) : Prop :=
  (∃ v, e = Effect.TaskSetLastRemind x.id v) ∨
  (∃ c t, e = Effect.SendText c t (some (reminderKeyboard x.id))) ∨
  (∃ c fid cap, e = Effect.SendFile c fid cap (some (reminderKeyboard x.id)))

/-! ### Concrete fixtures used by the witnesses and counterexamples -/

def c1Task : Task :=
  ⟨"t1", "u1", "c1", "A", "B", some "d", none, none, .APPROVED, 5, 0, 0⟩

def c1State : BotState := ⟨[], [c1Task], []⟩

def c1Ev : CbEvent := ⟨"approve_t1", "q1", "c1", "u9"⟩

def c2Task : Task :=
  ⟨"t1", "u1", "c1", "A", "B", some "d", none, none, .PENDING, 5, 0, 0⟩

def c2State : BotState := ⟨[], [c2Task], []⟩

def c3TD : TaskData :=
  ⟨some "desc", some "A", some "B", none, none, some "bob@x", none⟩

def c3State : BotState := ⟨[("c1", ⟨.AWAITING_TIME, c3TD⟩)], [], []⟩

def c3Ev : MsgEvent := ⟨"c1", "5", "A", "B", none⟩

def c4State : BotState :=
  ⟨[("c1", ⟨.AWAITING_DESCRIPTION, TaskData.empty⟩)], [], []⟩

def c4Ev : MsgEvent := ⟨"c1", "/start", "A", "B", none⟩

def c4IdleState : BotState := ⟨[], [], []⟩

def c5State : BotState := ⟨[], [], []⟩

def c5Ev : CbEvent := ⟨"check_user_tasks", "q1", "c1", "u1"⟩

def c7State : BotState :=
  ⟨[("c1", ⟨.AWAITING_USER_ID, TaskData.empty⟩)], [], []⟩

def c7Ev : MsgEvent := ⟨"c1", "nocontact", "A", "B", none⟩

def c8TD : TaskData :=
  ⟨some "desc", some "A", some "B", none, none, some "bob@x", none⟩

def c8State : BotState := ⟨[("c1", ⟨.AWAITING_TIME, c8TD⟩)], [], []⟩

def c8EvBad : MsgEvent := ⟨"c1", "abc", "A", "B", none⟩

def c10Task : Task :=
  ⟨"t1", "u1", "c1", "A", "B", some "d", none, none, .PENDING, 5, 0, 0⟩

def c10State : BotState :=
  ⟨[("c1", ⟨.AWAITING_DESCRIPTION, TaskData.empty⟩)], [c10Task], []⟩

def c10Ev : CbEvent := ⟨"reject_t1", "q1", "c1", "u9"⟩

/-! ## Theorems -/

/-- Helper: the branch part of the callback handler emits no outward message
effect; the acknowledgement and the reply are appended by the common tail. -/
theorem handleCallbackCore_no_msg (s : BotState) (ev : CbEvent) :
    ∀ e ∈ (handleCallbackCore s ev).effects, isMsgEffect e = false := by
  intro e he
  unfold handleCallbackCore at he
  split at he
  · unfold approveRejectCore at he
    split at he
    · simp at he
    · split at he <;> simp at he <;> subst he <;> rfl
  · unfold menuCore at he
    split at he <;> simp at he <;> subst he <;> rfl

/-- C1: once a task is APPROVED or REJECTED its status never changes: an
approve/reject callback on such a task leaves the whole state unchanged and
only reports the existing status, and any status-updating write the handler
performs requires the looked-up status to be PENDING. -/
theorem resolved_task_callback_is_noop (s : BotState) (ev : CbEvent) (t : Task)
    (hcb : isApproveReject ev.callbackData = true)
    (ht : taskFind s (cbTaskId ev.callbackData) = some t) :
    (t.status ≠ TaskStatus.PENDING →
      (handleCallback s ev).1 = s ∧
      (handleCallback s ev).2 =
        [Effect.AnswerCallback ev.queryId ackText,
         Effect.SendText ev.chatId
           (if t.status = TaskStatus.APPROVED then msgAlreadyApproved
            else msgAlreadyRejected) none]) ∧
    (∀ tid st, Effect.TaskUpdateStatus tid st ∈ (handleCallback s ev).2 →
      t.status = TaskStatus.PENDING) := by
  cases hst : t.status <;>
    simp [handleCallback, handleCallbackCore, approveRejectCore, hcb, ht, hst]

/-- Witness for C1 at a concrete already-approved task. -/
theorem resolved_task_callback_is_noop_witness :
    (handleCallback c1State c1Ev).1 = c1State := by
  exact ((resolved_task_callback_is_noop c1State c1Ev c1Task (by decide)
    (by decide)).1 (by decide)).1

/-- C10: an approve/reject callback never writes or deletes the chat's
session: the session store is unchanged and the trace holds no session
effect, whatever the task lookup found. -/
theorem approve_reject_preserves_sessions (s : BotState) (ev : CbEvent)
    (hcb : isApproveReject ev.callbackData = true) :
    (handleCallback s ev).1.sessions = s.sessions ∧
    ∀ e ∈ (handleCallback s ev).2, isSessionWrite e = false := by
  cases ht : taskFind s (cbTaskId ev.callbackData) with
  | none =>
    simp [handleCallback, handleCallbackCore, approveRejectCore, hcb, ht,
      isSessionWrite]
  | some t =>
    cases hst : t.status <;>
      simp [handleCallback, handleCallbackCore, approveRejectCore, hcb, ht,
        hst, isSessionWrite, taskSetStatus]

/-- Witness for C10 at a concrete pending task and an in-progress session. -/
theorem approve_reject_preserves_sessions_witness :
    (handleCallback c10State c10Ev).1.sessions = c10State.sessions := by
  exact (approve_reject_preserves_sessions c10State c10Ev (by decide)).1

/-- C6: every callback is handled by first acknowledging the query and only
then sending the reply as a plain text message with no keyboard; no other
outward message precedes them. -/
theorem callback_ack_then_plain_reply (s : BotState) (ev : CbEvent) :
    ∃ pre resp,
      (handleCallback s ev).2 =
        pre ++ [Effect.AnswerCallback ev.queryId ackText,
                Effect.SendText ev.chatId resp none] ∧
      ∀ e ∈ pre, isMsgEffect e = false := by
  exact ⟨(handleCallbackCore s ev).effects, (handleCallbackCore s ev).reply,
    rfl, handleCallbackCore_no_msg s ev⟩

/-- C7: in the two contact-awaiting steps the identifier is the segment after
the last slash, and an input whose trailing segment is empty or lacks an `@`
is rejected with the "send a contact" reply, the whole state (hence the
session and its step) left unchanged. -/
theorem contact_parse_reject (s : BotState) (ev : MsgEvent) (sess : Session)
    (now : Int) (newId : String) (createFails : Bool)
    (hs : sessGet s ev.chatId = some sess)
    (hstep : sess.step = UserStep.AWAITING_USER_ID ∨
             sess.step = UserStep.AWAITING_USER_ID_FOR_TASKS)
    (hbad : contactOf ev.text = "" ∨
            jsIncludesChar (contactOf ev.text) '@' = false) :
    contactOf "https://host/path/user@example" = "user@example" ∧
    handleMessage s ev now newId createFails =
      (s, [Effect.SendText ev.chatId msgBadContact none]) := by
  constructor
  · rfl
  · rcases hstep with h | h <;> rcases hbad with hb | hb <;>
      simp [handleMessage, msgCore, hs, stepCore, h, stepUserId, stepUserIdForTasks, hb]

/-- Witness for C7: a session awaiting a contact, input with no `@`. -/
theorem contact_parse_reject_witness :
    handleMessage c7State c7Ev 0 "n1" false =
      (c7State, [Effect.SendText "c1" msgBadContact none]) := by
  exact (contact_parse_reject c7State c7Ev ⟨.AWAITING_USER_ID, TaskData.empty⟩
    0 "n1" false (by decide) (Or.inl (by decide)) (Or.inr (by decide))).2

/-- C8: in AWAITING_TIME, input that parses to NaN or a non-positive value
replies with the format error leaving the state unchanged, and input parsing
to a positive integer creates a PENDING task with that reminder interval and
`lastRemind = now`. -/
theorem awaiting_time_parse (s : BotState) (ev : MsgEvent) (sess : Session)
    (now : Int) (newId : String)
    (hs : sessGet s ev.chatId = some sess)
    (hstep : sess.step = UserStep.AWAITING_TIME) :
    ((jsParseInt ev.text = none ∨ ∃ n, jsParseInt ev.text = some n ∧ n ≤ 0) →
      handleMessage s ev now newId false =
        (s, [Effect.SendText ev.chatId msgBadInterval none])) ∧
    ∀ n : Int, jsParseInt ev.text = some n → 0 < n →
      ∃ task,
        (handleMessage s ev now newId false).1.tasks = s.tasks ++ [task] ∧
        task.status = TaskStatus.PENDING ∧ task.remindInterval = n ∧
        task.lastRemind = now := by
  constructor
  · intro h
    rcases h with h | ⟨n, hn, hle⟩
    · simp [handleMessage, msgCore, hs, stepCore, hstep, stepTime, h]
    · simp [handleMessage, msgCore, hs, stepCore, hstep, stepTime, hn, hle]
  · intro n hn hpos
    have hneg : ¬ (n ≤ 0) := by omega
    refine ⟨⟨newId, sess.taskData.userId.getD "", ev.chatId,
      sess.taskData.firstName.getD "", sess.taskData.lastName.getD "",
      sess.taskData.description, sess.taskData.fileCaption,
      sess.taskData.fileId, .PENDING, n, now, now⟩, ?_, rfl, rfl, rfl⟩
    simp [handleMessage, msgCore, hs, stepCore, hstep, stepTime, hn, hneg, sessDel]

/-- Witness for C8 on the format-error side, input "abc". -/
theorem awaiting_time_parse_witness :
    handleMessage c8State c8EvBad 100 "n1" false =
      (c8State, [Effect.SendText "c1" msgBadInterval none]) := by
  exact (awaiting_time_parse c8State c8EvBad ⟨.AWAITING_TIME, c8TD⟩ 100 "n1"
    (by decide) (by decide)).1 (Or.inl (by decide))

/-- C3 counterexample: with a session in AWAITING_TIME and a failing
`task.create`, the handler replies with the generic error but the session is
NOT cleared — the `break` in the `catch` block exits the `switch` before
`redis.del(chatId)` runs, so the chat does not return to idle. -/
theorem create_failure_keeps_session_cex :
    (handleMessage c3State c3Ev 100 "t9" true).2 =
      [Effect.SendText "c1" msgCreateError none] ∧
    sessGet (handleMessage c3State c3Ev 100 "t9" true).1 "c1" =
      some ⟨UserStep.AWAITING_TIME, c3TD⟩ :=
  ⟨rfl, rfl⟩

/-- C3 (amended): on a persistence failure while creating the task in the
AWAITING_TIME step, the bot replies with the generic error message and leaves
the whole state — in particular the session, still at AWAITING_TIME —
unchanged, so the user can retry by re-sending the interval. -/
theorem create_failure_error_reply (s : BotState) (ev : MsgEvent)
    (sess : Session) (now : Int) (newId : String) (n : Int)
    (hs : sessGet s ev.chatId = some sess)
    (hstep : sess.step = UserStep.AWAITING_TIME)
    (hn : jsParseInt ev.text = some n) (hpos : 0 < n) :
    handleMessage s ev now newId true =
      (s, [Effect.SendText ev.chatId msgCreateError none]) := by
  have hneg : ¬ (n ≤ 0) := by omega
  simp [handleMessage, msgCore, hs, stepCore, hstep, stepTime, hn, hneg]

/-- Witness for the amended C3 at a concrete failing creation. -/
theorem create_failure_error_reply_witness :
    handleMessage c3State c3Ev 100 "t9" true =
      (c3State, [Effect.SendText "c1" msgCreateError none]) := by
  exact create_failure_error_reply c3State c3Ev ⟨.AWAITING_TIME, c3TD⟩ 100
    "t9" 5 (by decide) (by decide) (by decide) (by decide)

/-- C4 counterexample: a chat with a session at AWAITING_DESCRIPTION that
receives "/start" does NOT have its flow cancelled: the text is captured as
the task description, the session advances to AWAITING_USER_ID, and no User
upsert or welcome reply happens. -/
theorem start_does_not_cancel_cex :
    (sessGet (handleMessage c4State c4Ev 0 "n1" false).1 "c1").isSome = true ∧
    (handleMessage c4State c4Ev 0 "n1" false).2 =
      [Effect.SessionSet "c1"
         ⟨UserStep.AWAITING_USER_ID,
          ⟨some "/start", some "A", some "B", none, none, none, none⟩⟩
         (some 3600),
       Effect.SendText "c1" msgSendContact none] :=
  ⟨rfl, rfl⟩

/-- C4 (amended): "/start" only acts as a command for a chat with NO session:
there it deletes the (absent) session key, upserts the User record, and sends
the welcome reply with the four-button grid; with a session present the
message is consumed by the current step and cancels nothing. -/
theorem start_idle_welcome (s : BotState) (ev : MsgEvent) (now : Int)
    (newId : String) (createFails : Bool)
    (hs : sessGet s ev.chatId = none)
    (hcmd : (jsSplit ev.text ' ').headD "" = "/start") :
    (handleMessage s ev now newId createFails).1 =
      userUpsert (sessDel s ev.chatId) ev.chatId ev.fromFirstName
        ev.fromLastName ∧
    (handleMessage s ev now newId createFails).2 =
      [Effect.SessionDel ev.chatId,
       Effect.UserUpsert ev.chatId ev.fromFirstName ev.fromLastName,
       Effect.SendText ev.chatId msgWelcome (some welcomeKeyboard)] := by
  have h1 : commandCore s ev =
      ⟨userUpsert (sessDel s ev.chatId) ev.chatId ev.fromFirstName
         ev.fromLastName,
       [Effect.SessionDel ev.chatId,
        Effect.UserUpsert ev.chatId ev.fromFirstName ev.fromLastName],
       msgWelcome, welcomeKeyboard⟩ := by
    unfold commandCore
    rw [hcmd]
    rfl
  simp [handleMessage, msgCore, hs, h1, welcomeKeyboard]


/-- Witness for the amended C4 on an idle chat. -/
theorem start_idle_welcome_witness :
    (handleMessage c4IdleState ⟨"c1", "/start", "A", "B", none⟩ 0 "n1"
        false).2 =
      [Effect.SessionDel "c1", Effect.UserUpsert "c1" "A" "B",
       Effect.SendText "c1" msgWelcome (some welcomeKeyboard)] := by
  exact (start_idle_welcome c4IdleState ⟨"c1", "/start", "A", "B", none⟩ 0
    "n1" false (by decide) (by decide)).2

/-- Helper: every session write of the message path carries the 1-hour TTL
and enters `AWAITING_USER_ID` or `AWAITING_TIME`. -/
theorem stepCore_sessionSet (s : BotState) (ev : MsgEvent) (now : Int)
    (newId : String) (cf : Bool) (ss : Session) (c : String) (sess : Session)
    (exp : Option Nat)
    (h : Effect.SessionSet c sess exp ∈
      (stepCore s ev now newId cf ss).effects) :
    exp = some 3600 ∧
    (sess.step = UserStep.AWAITING_USER_ID ∨
     sess.step = UserStep.AWAITING_TIME) := by
  unfold stepCore stepDescription stepUserId stepUserIdForTasks stepTime at h
  repeat' (first | split at h | simp only [] at h)
  all_goals simp_all

/-- Helper: the idle command branch performs no session set. -/
theorem commandCore_no_sessionSet (s : BotState) (ev : MsgEvent) (c : String)
    (sess : Session) (exp : Option Nat)
    (h : Effect.SessionSet c sess exp ∈ (commandCore s ev).effects) :
    False := by
  unfold commandCore at h
  repeat' (first | split at h | simp only [] at h)
  all_goals simp_all

/-- Helper: every session write of the callback path omits the expiry and
enters `AWAITING_DESCRIPTION` or `AWAITING_USER_ID_FOR_TASKS`. -/
theorem handleCallbackCore_sessionSet (s : BotState) (ev : CbEvent)
    (c : String) (sess : Session) (exp : Option Nat)
    (h : Effect.SessionSet c sess exp ∈ (handleCallbackCore s ev).effects) :
    exp = none ∧
    (sess.step = UserStep.AWAITING_DESCRIPTION ∨
     sess.step = UserStep.AWAITING_USER_ID_FOR_TASKS) := by
  unfold handleCallbackCore approveRejectCore menuCore at h
  repeat' (first | split at h | simp only [] at h)
  all_goals simp_all

/-- C5 counterexample: the `check_user_tasks` callback performs a session
write entering AWAITING_USER_ID_FOR_TASKS — not AWAITING_DESCRIPTION — with
no expiry, so the AWAITING_DESCRIPTION write is not the only one omitting the
TTL. -/
theorem session_ttl_cex :
    (handleCallback c5State c5Ev).2 =
      [Effect.SessionSet "c1"
         ⟨UserStep.AWAITING_USER_ID_FOR_TASKS, TaskData.empty⟩ none,
       Effect.AnswerCallback "q1" ackText,
       Effect.SendText "c1" msgSendUserContact none] :=
  rfl

/-- C5 (amended): exactly the two callback-path session writes — entering
AWAITING_DESCRIPTION via `create_task` and AWAITING_USER_ID_FOR_TASKS via
`check_user_tasks` — omit the expiry, while every message-path session write
(entering AWAITING_USER_ID or AWAITING_TIME) carries the 1-hour TTL. -/
theorem session_write_expiry (s : BotState) :
    (∀ (ev : MsgEvent) (now : Int) (newId : String) (cf : Bool)
       (c : String) (sess : Session) (exp : Option Nat),
       Effect.SessionSet c sess exp ∈ (handleMessage s ev now newId cf).2 →
         exp = some 3600 ∧
         (sess.step = UserStep.AWAITING_USER_ID ∨
          sess.step = UserStep.AWAITING_TIME)) ∧
    (∀ (ev : CbEvent) (c : String) (sess : Session) (exp : Option Nat),
       Effect.SessionSet c sess exp ∈ (handleCallback s ev).2 →
         exp = none ∧
         (sess.step = UserStep.AWAITING_DESCRIPTION ∨
          sess.step = UserStep.AWAITING_USER_ID_FOR_TASKS)) := by
  constructor
  · intro ev now newId cf c sess exp h
    have hdec : (handleMessage s ev now newId cf).2 =
        (msgCore s ev now newId cf).effects ++
        [Effect.SendText ev.chatId (msgCore s ev now newId cf).reply
          (if (msgCore s ev now newId cf).keyboard.isEmpty then none
           else some (msgCore s ev now newId cf).keyboard)] := rfl
    rw [hdec, List.mem_append] at h
    rcases h with h | h
    · unfold msgCore at h
      split at h
      · exact stepCore_sessionSet _ _ _ _ _ _ _ _ _ h
      · exact absurd h (fun hc => commandCore_no_sessionSet _ _ _ _ _ hc)
    · simp at h
  · intro ev c sess exp h
    have hdec : (handleCallback s ev).2 =
        (handleCallbackCore s ev).effects ++
        [Effect.AnswerCallback ev.queryId ackText,
         Effect.SendText ev.chatId (handleCallbackCore s ev).reply none] :=
      rfl
    rw [hdec, List.mem_append] at h
    rcases h with h | h
    · exact handleCallbackCore_sessionSet _ _ _ _ _ h
    · simp at h

/-- Witness for the amended C5 at the concrete `check_user_tasks` write. -/
theorem session_write_expiry_witness :
    (none : Option Nat) = none ∧
    ((⟨UserStep.AWAITING_USER_ID_FOR_TASKS, TaskData.empty⟩ : Session).step =
       UserStep.AWAITING_DESCRIPTION ∨
     (⟨UserStep.AWAITING_USER_ID_FOR_TASKS, TaskData.empty⟩ : Session).step =
       UserStep.AWAITING_USER_ID_FOR_TASKS) := by
  exact (session_write_expiry c5State).2 c5Ev "c1"
    ⟨UserStep.AWAITING_USER_ID_FOR_TASKS, TaskData.empty⟩ none (by decide)

/-- Helper: `sameExceptLastRemind` is reflexive. -/
theorem sameExceptLastRemind_refl (a : Task) : sameExceptLastRemind a a :=
  ⟨rfl, rfl, rfl, rfl, rfl, rfl, rfl, rfl, rfl, rfl, rfl⟩

/-- Helper: `sameExceptLastRemind` is transitive. -/
theorem sameExceptLastRemind_trans {a b c : Task}
    (h1 : sameExceptLastRemind a b) (h2 : sameExceptLastRemind b c) :
    sameExceptLastRemind a c := by
  obtain ⟨a1, a2, a3, a4, a5, a6, a7, a8, a9, a10, a11⟩ := h1
  obtain ⟨b1, b2, b3, b4, b5, b6, b7, b8, b9, b10, b11⟩ := h2
  exact ⟨b1.trans a1, b2.trans a2, b3.trans a3, b4.trans a4, b5.trans a5,
    b6.trans a6, b7.trans a7, b8.trans a8, b9.trans a9, b10.trans a10,
    b11.trans a11⟩

/-- Helper: the relation holds of every list against itself. -/
theorem forall2_serl_refl (l : List Task) :
    List.Forall₂ sameExceptLastRemind l l := by
  induction l with
  | nil => exact List.Forall₂.nil
  | cons x xs ih => exact List.Forall₂.cons (sameExceptLastRemind_refl x) ih

/-- Helper: the relation composes along a middle list. -/
theorem forall2_serl_trans {l1 l2 l3 : List Task}
    (h1 : List.Forall₂ sameExceptLastRemind l1 l2)
    (h2 : List.Forall₂ sameExceptLastRemind l2 l3) :
    List.Forall₂ sameExceptLastRemind l1 l3 := by
  induction h1 generalizing l3 with
  | nil => cases h2; exact List.Forall₂.nil
  | cons hab _ ih =>
    cases h2 with
    | cons hbc h' =>
      exact List.Forall₂.cons (sameExceptLastRemind_trans hab hbc) (ih h')

/-- Helper: a `lastRemind`-only update keeps every other field. -/
theorem forall2_serl_setLastRemind (l : List Task) (tid : String) (v : Int) :
    List.Forall₂ sameExceptLastRemind l (l.map (updLastRemind tid v)) := by
  induction l with
  | nil => exact List.Forall₂.nil
  | cons x xs ih =>
    refine List.Forall₂.cons ?_ ih
    unfold updLastRemind
    by_cases hx : x.id = tid
    · rw [if_pos hx]
      exact ⟨rfl, rfl, rfl, rfl, rfl, rfl, rfl, rfl, rfl, rfl, rfl⟩
    · rw [if_neg hx]
      exact sameExceptLastRemind_refl x

/-- Helper: the sweep's fold only rewrites `lastRemind` fields and leaves
sessions and users alone, whatever the worklist. -/
theorem reminderFold_frame (now : Int) (f : String → Bool) (l : List Task) :
    ∀ (st : BotState) (effs : List Effect),
      List.Forall₂ sameExceptLastRemind st.tasks
        ((l.foldl (reminderStep now f) (st, effs)).1).tasks ∧
      ((l.foldl (reminderStep now f) (st, effs)).1).sessions = st.sessions ∧
      ((l.foldl (reminderStep now f) (st, effs)).1).users = st.users := by
  induction l with
  | nil => intro st effs; exact ⟨forall2_serl_refl _, rfl, rfl⟩
  | cons x xs ih =>
    intro st effs
    simp only [List.foldl_cons]
    unfold reminderStep
    split
    · exact ih st effs
    · split
      · exact ih st effs
      · obtain ⟨h1, h2, h3⟩ := ih
          (taskSetLastRemind st x.id (now + x.remindInterval * 60 * 1000)) _
        exact ⟨forall2_serl_trans
          (forall2_serl_setLastRemind st.tasks x.id _) h1, h2, h3⟩

/-- C9: a reminder sweep never rewrites any task field other than
`lastRemind` — status, text, file fields, interval, addressing and creator
name are all kept, positionally — and it creates and deletes no task record
and leaves sessions and users untouched. -/
theorem reminder_sweep_frame (s : BotState) (now : Int) (f : String → Bool) :
    List.Forall₂ sameExceptLastRemind s.tasks (reminderTick s now f).1.tasks ∧
    (reminderTick s now f).1.tasks.length = s.tasks.length ∧
    (reminderTick s now f).1.sessions = s.sessions ∧
    (reminderTick s now f).1.users = s.users := by
  obtain ⟨h1, h2, h3⟩ := reminderFold_frame now f (reminderSelect s now) s []
  exact ⟨h1, h1.length_eq.symm, h2, h3⟩

/-- Helper: the update keeps the id of every row. -/
theorem updLastRemind_id (tid : String) (v : Int) (u : Task) :
    (updLastRemind tid v u).id = u.id := by
  unfold updLastRemind
  split <;> rfl

/-- Helper: the update leaves rows with a different id alone. -/
theorem updLastRemind_ne (tid : String) (v : Int) (u : Task)
    (h : ¬ u.id = tid) : updLastRemind tid v u = u := by
  unfold updLastRemind
  rw [if_neg h]

/-- Helper: the update rewrites exactly `lastRemind` of the matching row. -/
theorem updLastRemind_self (tid : String) (v : Int) (u : Task)
    (h : u.id = tid) : updLastRemind tid v u = { u with lastRemind := v } := by
  unfold updLastRemind
  rw [if_pos h]

/-- Helper: updating `lastRemind` of a different id does not change a lookup. -/
theorem find?_map_upd_ne (tid' tid : String) (v : Int) (l : List Task)
    (h : ¬ tid' = tid) :
    (l.map (updLastRemind tid' v)).find? (fun t => t.id = tid) =
      l.find? (fun t => t.id = tid) := by
  induction l with
  | nil => rfl
  | cons x xs ih =>
    simp only [List.map_cons, List.find?, updLastRemind_id]
    by_cases hx : x.id = tid
    · have hne : ¬ x.id = tid' := fun hc => h (hc.symm.trans hx)
      simp only [decide_eq_true hx, updLastRemind_ne tid' v x hne]
    · simp only [decide_eq_false hx, ih]

/-- Helper: updating `lastRemind` of the looked-up id rewrites exactly that
field of the lookup result. -/
theorem find?_map_upd_self (tid : String) (v : Int) (l : List Task) (u : Task)
    (h : l.find? (fun t => t.id = tid) = some u) :
    (l.map (updLastRemind tid v)).find? (fun t => t.id = tid) =
      some { u with lastRemind := v } := by
  induction l with
  | nil => simp at h
  | cons x xs ih =>
    simp only [List.find?] at h
    simp only [List.map_cons, List.find?, updLastRemind_id]
    by_cases hx : x.id = tid
    · simp only [decide_eq_true hx] at h ⊢
      obtain rfl : x = u := Option.some.inj h
      rw [updLastRemind_self tid v x hx]
    · simp only [decide_eq_false hx] at h ⊢
      exact ih h

/-- Helper: `taskFind` commutes with a `lastRemind` update of a different id. -/
theorem taskFind_setLastRemind_ne (st : BotState) (tid' tid : String) (v : Int)
    (h : ¬ tid' = tid) :
    taskFind (taskSetLastRemind st tid' v) tid = taskFind st tid :=
  find?_map_upd_ne tid' tid v st.tasks h

/-- Helper: `taskFind` after a `lastRemind` update of the looked-up id. -/
theorem taskFind_setLastRemind_self (st : BotState) (tid : String) (v : Int)
    (u : Task) (h : taskFind st tid = some u) :
    taskFind (taskSetLastRemind st tid v) tid =
      some { u with lastRemind := v } :=
  find?_map_upd_self tid v st.tasks u h

/-- Helper: a task whose send fails is skipped by the loop body. -/
theorem reminderStep_skip_fail (now : Int) (f : String → Bool)
    (acc : BotState × List Effect) (task : Task) (h : f task.id = true) :
    reminderStep now f acc task = acc := by
  simp [reminderStep, h]

/-- Helper: a task whose re-fetch fails is skipped by the loop body. -/
theorem reminderStep_skip_none (now : Int) (f : String → Bool)
    (acc : BotState × List Effect) (task : Task) (h1 : f task.id = false)
    (h2 : sendReminderWithButtons acc.1 task.userToId task.id = none) :
    reminderStep now f acc task = acc := by
  simp [reminderStep, h1, h2]

/-- Helper: the loop body on a sendable task records the send and advances
`lastRemind`. -/
theorem reminderStep_update (now : Int) (f : String → Bool)
    (acc : BotState × List Effect) (task : Task) (e : Effect)
    (h1 : f task.id = false)
    (h2 : sendReminderWithButtons acc.1 task.userToId task.id = some e) :
    reminderStep now f acc task =
      (taskSetLastRemind acc.1 task.id
         (now + task.remindInterval * 60 * 1000),
       acc.2 ++ [e, Effect.TaskSetLastRemind task.id
         (now + task.remindInterval * 60 * 1000)]) := by
  simp [reminderStep, h1, h2]

/-- Helper: a fold over tasks none of which has id `tid` leaves the lookup of
`tid` unchanged. -/
theorem fold_find_untouched (now : Int) (f : String → Bool) (tid : String) :
    ∀ (l : List Task) (st : BotState) (effs : List Effect),
      (∀ x ∈ l, ¬ x.id = tid) →
      taskFind ((l.foldl (reminderStep now f) (st, effs)).1) tid =
        taskFind st tid := by
  intro l
  induction l with
  | nil => intro st effs _; rfl
  | cons x xs ih =>
    intro st effs h
    have hx : ¬ x.id = tid := h x (List.mem_cons_self x xs)
    have hxs : ∀ y ∈ xs, ¬ y.id = tid :=
      fun y hy => h y (List.mem_cons_of_mem x hy)
    simp only [List.foldl_cons]
    cases hfx : f x.id with
    | true =>
      rw [reminderStep_skip_fail now f (st, effs) x hfx]
      exact ih st effs hxs
    | false =>
      cases hsend : sendReminderWithButtons st x.userToId x.id with
      | none =>
        rw [reminderStep_skip_none now f (st, effs) x hfx hsend]
        exact ih st effs hxs
      | some e =>
        rw [reminderStep_update now f (st, effs) x e hfx hsend]
        exact (ih _ _ hxs).trans (taskFind_setLastRemind_ne st x.id tid _ hx)

/-- Helper: the re-fetch succeeds whenever the task is found, yielding some
send effect. -/
theorem sendReminder_of_found (st : BotState) (c : String) (task : Task)
    (h : taskFind st task.id = some task) :
    ∃ e, sendReminderWithButtons st c task.id = some e := by
  have hval : sendReminderWithButtons st c task.id =
      if optTruthy task.fileId then
        some (Effect.SendFile c (task.fileId.getD "") (reminderText task)
          (some (reminderKeyboard task.id)))
      else
        some (Effect.SendText c (reminderText task)
          (some (reminderKeyboard task.id))) := by
    unfold sendReminderWithButtons
    rw [h]
  rw [hval]
  by_cases hfid : optTruthy task.fileId = true
  · rw [if_pos hfid]
    exact ⟨_, rfl⟩
  · rw [if_neg hfid]
    exact ⟨_, rfl⟩

/-- Helper: the fold advances `lastRemind` of a task on its worklist to
`now + interval` minutes, provided ids are unique, the task is present, and
its send does not fail. -/
theorem fold_updates_selected (now : Int) (f : String → Bool) (task : Task) :
    ∀ (l : List Task) (st : BotState) (effs : List Effect),
      task ∈ l →
      (l.map Task.id).Nodup →
      taskFind st task.id = some task →
      f task.id = false →
      taskFind ((l.foldl (reminderStep now f) (st, effs)).1) task.id =
        some { task with
               lastRemind := now + task.remindInterval * 60 * 1000 } := by
  intro l
  induction l with
  | nil => intro st effs hmem; simp at hmem
  | cons x xs ih =>
    intro st effs hmem hnd hfind hf
    rcases List.mem_cons.mp hmem with hx | hx
    · subst hx
      have hxs : ∀ y ∈ xs, ¬ y.id = task.id := by
        intro y hy hc
        have hmm : task.id ∈ xs.map Task.id :=
          hc ▸ List.mem_map_of_mem Task.id hy
        exact (List.nodup_cons.mp hnd).1 hmm
      obtain ⟨e, he⟩ := sendReminder_of_found st task.userToId task hfind
      simp only [List.foldl_cons]
      rw [reminderStep_update now f (st, effs) task e hf he]
      exact (fold_find_untouched now f task.id xs _ _ hxs).trans
        (taskFind_setLastRemind_self st task.id _ task hfind)
    · have hxid : ¬ x.id = task.id := by
        intro hc
        have hmm : task.id ∈ xs.map Task.id :=
          List.mem_map_of_mem Task.id hx
        rw [← hc] at hmm
        exact (List.nodup_cons.mp hnd).1 hmm
      simp only [List.foldl_cons]
      cases hfx : f x.id with
      | true =>
        rw [reminderStep_skip_fail now f (st, effs) x hfx]
        exact ih st effs hx (List.nodup_cons.mp hnd).2 hfind hf
      | false =>
        cases hsend : sendReminderWithButtons st x.userToId x.id with
        | none =>
          rw [reminderStep_skip_none now f (st, effs) x hfx hsend]
          exact ih st effs hx (List.nodup_cons.mp hnd).2 hfind hf
        | some e =>
          rw [reminderStep_update now f (st, effs) x e hfx hsend]
          refine ih _ _ hx (List.nodup_cons.mp hnd).2 ?_ hf
          exact (taskFind_setLastRemind_ne st x.id task.id _ hxid).trans hfind

/-- Helper: the sweep's fold preserves the id column of the task table. -/
theorem fold_ids (now : Int) (f : String → Bool) :
    ∀ (l : List Task) (st : BotState) (effs : List Effect),
      ((l.foldl (reminderStep now f) (st, effs)).1).tasks.map Task.id =
        st.tasks.map Task.id := by
  intro l
  induction l with
  | nil => intro st effs; rfl
  | cons x xs ih =>
    intro st effs
    simp only [List.foldl_cons]
    cases hfx : f x.id with
    | true =>
      rw [reminderStep_skip_fail now f (st, effs) x hfx]
      exact ih st effs
    | false =>
      cases hsend : sendReminderWithButtons st x.userToId x.id with
      | none =>
        rw [reminderStep_skip_none now f (st, effs) x hfx hsend]
        exact ih st effs
      | some e =>
        rw [reminderStep_update now f (st, effs) x e hfx hsend]
        refine (ih _ _).trans ?_
        show (st.tasks.map (updLastRemind x.id _)).map Task.id =
          st.tasks.map Task.id
        rw [List.map_map]
        exact List.map_congr_left (fun u _ => updLastRemind_id x.id _ u)

/-- Helper: with unique ids, any member carrying the looked-up id is the
lookup result. -/
theorem find_eq_of_mem (tid : String) :
    ∀ (l : List Task) (w u : Task),
      (l.map Task.id).Nodup →
      l.find? (fun t => t.id = tid) = some w →
      u ∈ l → u.id = tid → u = w := by
  intro l
  induction l with
  | nil => intro w u _ _ hu; simp at hu
  | cons x xs ih =>
    intro w u hnd hf hu hid
    rcases List.mem_cons.mp hu with rfl | hu'
    · rw [List.find?_cons_of_pos _ (by simpa using hid)] at hf
      exact Option.some.inj hf
    · by_cases hx : x.id = tid
      · exfalso
        have hmm : u.id ∈ xs.map Task.id := List.mem_map_of_mem Task.id hu'
        rw [hid, ← hx] at hmm
        exact (List.nodup_cons.mp hnd).1 hmm
      · rw [List.find?_cons_of_neg _ (by simpa using hx)] at hf
        exact ih w u (List.nodup_cons.mp hnd).2 hf hu' hid

/-- Helper: a send produced by the re-fetch carries the approve/reject
keyboard of the requested task id. -/
theorem sendReminder_keyboard (st : BotState) (c tid : String) (e : Effect)
    (h : sendReminderWithButtons st c tid = some e) :
    (∃ c' t, e = Effect.SendText c' t (some (reminderKeyboard tid))) ∨
    (∃ c' fid cap,
      e = Effect.SendFile c' fid cap (some (reminderKeyboard tid))) := by
  unfold sendReminderWithButtons at h
  split at h
  · simp at h
  · split at h
    · exact Or.inr ⟨_, _, _, (Option.some.inj h).symm⟩
    · exact Or.inl ⟨_, _, (Option.some.inj h).symm⟩

/-- Helper: every effect of the sweep's fold either was already accumulated
or belongs to some task of the worklist. -/
theorem fold_effects_origin (now : Int) (f : String → Bool) :
    ∀ (l : List Task) (st : BotState) (effs : List Effect) (e : Effect),
      e ∈ (l.foldl (reminderStep now f) (st, effs)).2 →
      e ∈ effs ∨ ∃ x, x ∈ l ∧ sweepEffectOf x e := by
  intro l
  induction l with
  | nil => intro st effs e h; exact Or.inl h
  | cons x xs ih =>
    intro st effs e h
    simp only [List.foldl_cons] at h
    cases hfx : f x.id with
    | true =>
      rw [reminderStep_skip_fail now f (st, effs) x hfx] at h
      rcases ih st effs e h with h' | ⟨y, hy, hsw⟩
      · exact Or.inl h'
      · exact Or.inr ⟨y, List.mem_cons_of_mem x hy, hsw⟩
    | false =>
      cases hsend : sendReminderWithButtons st x.userToId x.id with
      | none =>
        rw [reminderStep_skip_none now f (st, effs) x hfx hsend] at h
        rcases ih st effs e h with h' | ⟨y, hy, hsw⟩
        · exact Or.inl h'
        · exact Or.inr ⟨y, List.mem_cons_of_mem x hy, hsw⟩
      | some e' =>
        rw [reminderStep_update now f (st, effs) x e' hfx hsend] at h
        rcases ih _ _ e h with h' | ⟨y, hy, hsw⟩
        · rw [List.mem_append] at h'
          rcases h' with h' | h'
          · exact Or.inl h'
          · simp only [List.mem_cons, List.not_mem_nil, or_false] at h'
            rcases h' with rfl | rfl
            · refine Or.inr ⟨x, List.mem_cons_self x xs, ?_⟩
              rcases sendReminder_keyboard st x.userToId x.id e hsend with
                ⟨c', t, rfl⟩ | ⟨c', fid, cap, rfl⟩
              · exact Or.inr (Or.inl ⟨c', t, rfl⟩)
              · exact Or.inr (Or.inr ⟨c', fid, cap, rfl⟩)
            · exact Or.inr ⟨x, List.mem_cons_self x xs, Or.inl ⟨_, rfl⟩⟩
        · exact Or.inr ⟨y, List.mem_cons_of_mem x hy, hsw⟩

/-- Helper: appending to a string is left-cancellative. -/
theorem strAppend_cancel_left (p : String) :
    ∀ {a b : String}, p ++ a = p ++ b → a = b := by
  intro a b h
  cases p with | mk lp =>
  cases a with | mk la =>
  cases b with | mk lb =>
  have hd : lp ++ la = lp ++ lb := congrArg String.data h
  exact congrArg String.mk (List.append_cancel_left hd)

/-- Helper: the reminder keyboard determines the task id. -/
theorem reminderKeyboard_inj {a b : String}
    (h : reminderKeyboard a = reminderKeyboard b) : a = b := by
  have hbtn : ("approve_" ++ a : String) = "approve_" ++ b := by
    have h1 := congrArg
      (fun kb : Keyboard => ((kb.headD []).headD ⟨"", "", ""⟩).callbackData) h
    simpa [reminderKeyboard] using h1
  exact strAppend_cancel_left "approve_" hbtn

/-- C2: a pending task selected by a sweep at time `now` whose prompt is sent
has its `lastRemind` advanced to `now` plus `remindInterval` minutes, and any
later sweep at a time up to that moment emits no reminder prompt carrying
this task's approve/reject buttons. -/
theorem reminder_advances (s : BotState) (now : Int) (f : String → Bool)
    (task : Task)
    (hnd : (s.tasks.map Task.id).Nodup)
    (hsel : task ∈ reminderSelect s now)
    (hf : f task.id = false) :
    taskFind (reminderTick s now f).1 task.id =
      some { task with
             lastRemind := now + task.remindInterval * 60 * 1000 } ∧
    ∀ (t' : Int) (f' : String → Bool),
      t' ≤ now + task.remindInterval * 60 * 1000 →
      ∀ e ∈ (reminderTick (reminderTick s now f).1 t' f').2,
        ¬ isReminderSendFor task.id e := by
  have hmem : task ∈ s.tasks := List.mem_of_mem_filter hsel
  have hfind : taskFind s task.id = some task := by
    have hex : (s.tasks.find? (fun t => t.id = task.id)).isSome := by
      rw [List.find?_isSome]
      exact ⟨task, hmem, by simp⟩
    obtain ⟨w, hw⟩ := Option.isSome_iff_exists.mp hex
    have := find_eq_of_mem task.id s.tasks w task hnd hw hmem rfl
    rw [← this] at hw
    exact hw
  have hselnd : ((reminderSelect s now).map Task.id).Nodup := by
    refine List.Nodup.sublist ?_ hnd
    exact List.Sublist.map Task.id (List.filter_sublist s.tasks)
  have ha : taskFind (reminderTick s now f).1 task.id =
      some { task with
             lastRemind := now + task.remindInterval * 60 * 1000 } :=
    fold_updates_selected now f task (reminderSelect s now) s [] hsel hselnd
      hfind hf
  refine ⟨ha, ?_⟩
  intro t' f' ht' e he hsendfor
  have hids : (reminderTick s now f).1.tasks.map Task.id =
      s.tasks.map Task.id :=
    fold_ids now f (reminderSelect s now) s []
  have hnd' : ((reminderTick s now f).1.tasks.map Task.id).Nodup := by
    rw [hids]
    exact hnd
  rcases fold_effects_origin t' f'
      (reminderSelect (reminderTick s now f).1 t') (reminderTick s now f).1 []
      e he with h0 | ⟨x, hx, hsw⟩
  · simp at h0
  · have hxid : x.id = task.id := by
      rcases hsw with ⟨v, rfl⟩ | ⟨c', t, rfl⟩ | ⟨c', fid, cap, rfl⟩
      · exact absurd hsendfor (by simp [isReminderSendFor])
      · exact reminderKeyboard_inj
          (by simpa [isReminderSendFor] using hsendfor)
      · exact reminderKeyboard_inj
          (by simpa [isReminderSendFor] using hsendfor)
    have hxmem : x ∈ (reminderTick s now f).1.tasks :=
      List.mem_of_mem_filter hx
    have hx_eq : x = { task with
        lastRemind := now + task.remindInterval * 60 * 1000 } :=
      find_eq_of_mem task.id (reminderTick s now f).1.tasks _ x hnd' ha hxmem
        hxid
    have hcond := List.of_mem_filter hx
    rw [Bool.and_eq_true] at hcond
    have hlt : x.lastRemind < t' := of_decide_eq_true hcond.2
    rw [hx_eq] at hlt
    have hlt' : now + task.remindInterval * 60 * 1000 < t' := hlt
    exact absurd hlt' (not_lt.mpr ht')

/-- Witness for C2 at a concrete one-task state swept at time 100. -/
theorem reminder_advances_witness :
    taskFind (reminderTick c2State 100 (fun _ => false)).1 "t1" =
      some { c2Task with lastRemind := 100 + 5 * 60 * 1000 } := by
  exact (reminder_advances c2State 100 (fun _ => false) c2Task (by decide)
    (by decide) rfl).1

end VkBot

